import Mathlib

/-!
Shallow embedding of the channel registry / event-bridging core of the
`angular-laravel-echo` library (`src/lib/src/services/lib.service.ts`,
class `EchoService` plus helper class `TypeFormatter`).

Modelling decisions:
* rxjs `Subject` / `ReplaySubject(1)` instances are held in a global
  store `EchoState.subjects` keyed by a numeric id (object identity in
  the source); a `Channel`'s `listeners` map stores those ids.
* Underlying Laravel-Echo channel handles (object identity in the
  source) are modelled as numeric ids allocated from `nextHandle`.
* Calls into the opaque transport (Laravel Echo connector) are recorded
  in an effect trace (`Eff`), in the order the source performs them.
* The transport's callback deliveries (channel events, presence deltas,
  notifications) are modelled as `deliver*` functions that perform
  exactly the mutations the source's registered callbacks perform.
* JavaScript strings are modelled as Lean `String`s, with the
  character-level operations (`indexOf === 0`, `substr`, one-shot
  `replace`) spelled out on `List Char`.
-/

namespace Echo

/-- Channel kinds, source type `ChannelType = 'public' | 'presence' | 'private'`
(`private` is a Lean keyword, so the third constructor is named `priv`). -/
inductive ChannelType
  | public
  | presence
  | priv
  deriving DecidableEq, Repr

/-- Boolean equality on channel kinds (JS `===` on the string literals). -/
def ChannelType.beq : ChannelType → ChannelType → Bool
  | .public, .public => true
  | .presence, .presence => true
  | .priv, .priv => true
  | _, _ => false

instance : BEq ChannelType := ⟨ChannelType.beq⟩

/-- A broadcast notification payload: a `type` field (fully qualified
class name) plus the rest of the payload, kept opaque. -/
structure Notification where
  type : String
  body : String
  deriving DecidableEq, Repr

/-- Values carried on the modelled rxjs streams. -/
inductive Val
  | str : String → Val
  | roster : List String → Val
  | notif : Notification → Val
  deriving DecidableEq, Repr

/-- The two stream flavours the source uses: plain `Subject` (no replay)
and `ReplaySubject(1)` (replays the latest value to new subscribers). -/
inductive SubjectKind
  | plain
  | replay1
  deriving DecidableEq, Repr

/-- State of one rxjs subject: its flavour, the values emitted on it so
far (in order), and whether `complete()` has been called. -/
structure Subject where
  kind : SubjectKind
  emitted : List Val
  completed : Bool
  deriving DecidableEq, Repr

/-- Source interface `Channel` (the registry entry): name, underlying
Echo channel handle, kind, per-event-key listener subjects, and the
presence member list (`users?: any[] | null`; `none` models both the
absent field and `null`). -/
structure Channel where
  name : String
  handle : Nat
  type : ChannelType
  listeners : List (String × Nat)
  users : Option (List String)
  deriving DecidableEq, Repr

/-- Errors thrown (or put on errored observables) by the service.  The
source throws plain `Error`s; the constructor here records which
taxonomy class the message belongs to (`NotFound`, `KindMismatch`,
`UnsupportedOperation`) together with the exact message text. -/
inductive EchoError
  | notFound (msg : String)
  | kindMismatch (msg : String)
  | unsupportedOperation (msg : String)
  deriving DecidableEq, Repr

/-- Trace of calls into the opaque transport plus the internal teardown
steps of `leave`, recorded in the order the source performs them. -/
inductive Eff
  | subscribe (name : String) (type : ChannelType)
  | transportLeave (name : String)
  | listenBind (name : String) (event : String)
  | whisperBind (name : String) (event : String)
  | whisperSend (name : String) (event : String) (data : Val)
  | notificationBind (name : String)
  | presenceBind (name : String)
  | completeSubject (sid : Nat)
  | removeEntry (name : String)
  deriving DecidableEq, Repr

/-- Service configuration (`EchoConfig` in the source); the Laravel Echo
`options` struct is reduced to the broadcaster selector, the only field
the modelled code inspects. -/
structure EchoConfig where
  userModel : String
  notificationNamespace : Option String
  broadcaster : String
  deriving DecidableEq, Repr

/-- Mutable state of an `EchoService` instance. -/
structure EchoState where
  channels : List Channel
  notificationListeners : List (String × Nat)
  userChannelName : Option String
  authHeaders : List (String × String)
  subjects : List (Nat × Subject)
  nextSub : Nat
  nextHandle : Nat
  deriving DecidableEq, Repr

/-- State of a freshly constructed service: empty registry, no
notification listeners, logged out. -/
def initState : EchoState :=
  { channels := []
    notificationListeners := []
    userChannelName := none
    authHeaders := []
    subjects := []
    nextSub := 0
    nextHandle := 0 }

/-- First-match association lookup, modelling JavaScript object-property
access `table[key]` on the listener maps. -/
def lookupA {α β : Type} [BEq α] (l : List (α × β)) (k : α) : Option β :=
  match l with
  | [] => none
  | p :: rest => if p.1 == k then some p.2 else lookupA rest k

/-- Membership test on a list of subject ids. -/
def containsA (l : List Nat) (k : Nat) : Bool :=
  match l with
  | [] => false
  | x :: rest => if x == k then true else containsA rest k

/-- A fresh subject of the given flavour. -/
def mkSubject (kind : SubjectKind) : Subject :=
  { kind := kind, emitted := [], completed := false }

/-- Allocate a fresh subject in the store (the id must be `s.nextSub`). -/
def addSubject (s : EchoState) (sid : Nat) (kind : SubjectKind) : EchoState :=
  { s with subjects := (sid, mkSubject kind) :: s.subjects, nextSub := s.nextSub + 1 }

/-- Append `v` to the emission list of the first subject with id `sid`
(models `subject.next(v)`). -/
def emitAssoc (l : List (Nat × Subject)) (sid : Nat) (v : Val) : List (Nat × Subject) :=
  match l with
  | [] => []
  | p :: rest =>
    if p.1 == sid then (p.1, { p.2 with emitted := p.2.emitted ++ [v] }) :: rest
    else p :: emitAssoc rest sid v

/-- Emit `v` on subject `sid` of the service state. -/
def emitOn (s : EchoState) (sid : Nat) (v : Val) : EchoState :=
  { s with subjects := emitAssoc s.subjects sid v }

/-- Mark every subject whose id occurs in `sids` as completed (models the
`forEach(key => listeners[key].complete())` loop of `leave`). -/
def completeMap (l : List (Nat × Subject)) (sids : List Nat) : List (Nat × Subject) :=
  match l with
  | [] => []
  | p :: rest =>
    (if containsA sids p.1 then (p.1, { p.2 with completed := true }) else p) :: completeMap rest sids

/-- Look up a subject by id. -/
def lookupSubject (s : EchoState) (sid : Nat) : Option Subject :=
  lookupA s.subjects sid

/-- Emission list of subject `sid`, if it exists. -/
def subjectEmitted (s : EchoState) (sid : Nat) : Option (List Val) :=
  (lookupSubject s sid).map Subject.emitted

/-- Completion flag of subject `sid`, if it exists. -/
def subjectCompleted (s : EchoState) (sid : Nat) : Option Bool :=
  (lookupSubject s sid).map Subject.completed

/-- What a new subscriber of subject `sid` receives immediately upon
subscribing, before any further emission: rxjs `ReplaySubject(1)`
replays the latest buffered value, a plain `Subject` replays nothing.
(Modelled from rxjs semantics; rxjs itself is an external library.) -/
def subscribeNow (s : EchoState) (sid : Nat) : List Val :=
  match lookupSubject s sid with
  | some sub =>
    match sub.kind with
    | .replay1 => sub.emitted.getLast?.toList
    | .plain => []
  | none => []

/-- Replace the first channel named `name` with `c'` (in-place object
mutation in the source). -/
def updateFirst (l : List Channel) (name : String) (c' : Channel) : List Channel :=
  match l with
  | [] => []
  | c :: rest => if c.name == name then c' :: rest else c :: updateFirst rest name c'

/-- Remove the first channel named `name` (the `indexOf`/`splice` pair in
`leave`). -/
def eraseFirst (l : List Channel) (name : String) : List Channel :=
  match l with
  | [] => []
  | c :: rest => if c.name == name then rest else c :: eraseFirst rest name

/-- First channel in the registry with the given name
(`this.channels.find(channel => channel.name === name)`). -/
def findChannel (s : EchoState) (name : String) : Option Channel :=
  s.channels.find? (fun c => c.name == name)

/-- Lower-case name of a channel kind as it appears in the source's
string literals. -/
def channelTypeName (t : ChannelType) : String :=
  match t with
  | .public => "public"
  | .presence => "presence"
  | .priv => "private"

/-- Capitalised kind name, `${type[0].toUpperCase()}${type.substr(1)}` in
the source. -/
def channelTypeCapitalized (t : ChannelType) : String :=
  match t with
  | .public => "Public"
  | .presence => "Presence"
  | .priv => "Private"

end Echo

namespace Echo.TypeFormatter

/-- `TypeFormatter.format`: if a (truthy, i.e. non-null non-empty)
namespace is configured and the incoming type starts with it
(`indexOf(namespace) === 0`), drop exactly `namespace.length`
characters (`substr(namespace.length)`); otherwise return the type
unchanged. -/
def format (ns : Option String) (notificationType : String) : String :=
  match ns with
  | none => notificationType
  | some n =>
    if n = "" then notificationType
    else if n.data.isPrefixOf notificationType.data then
      String.mk (notificationType.data.drop n.data.length)
    else notificationType

end Echo.TypeFormatter

namespace Echo

/-- One-shot string replacement on character lists: JavaScript
`String.prototype.replace` with a string pattern replaces only the first
occurrence. -/
def replaceFirstList (l pat rep : List Char) : List Char :=
  match l with
  | [] => []
  | c :: rest =>
    if pat.isPrefixOf (c :: rest) then rep ++ (c :: rest).drop pat.length
    else c :: replaceFirstList rest pat rep

/-- One-shot string replacement, lifted to `String`. -/
def replaceFirst (s pat rep : String) : String :=
  String.mk (replaceFirstList s.data pat.data rep.data)

/-- The private user channel name computed by `login`:
```${this.config.userModel.replace('\\', '.')}.${userId}``` (the user id
is modelled as a string). -/
def userChannelNameFor (cfg : EchoConfig) (userId : String) : String :=
  replaceFirst cfg.userModel "\\" "." ++ "." ++ userId

/-- `getChannelFromArray`: find the channel by name; if a kind is
expected and the found channel's kind differs, throw
`Channel ${name} is not a ${type} channel` (KindMismatch). -/
def getChannelFromArray (s : EchoState) (name : String) (type : Option ChannelType) :
    Except EchoError (Option Channel) :=
  match findChannel s name with
  | some c =>
    match type with
    | some t =>
      if c.type = t then .ok (some c)
      else .error (.kindMismatch ("Channel " ++ name ++ " is not a " ++ channelTypeName t ++ " channel"))
    | none => .ok (some c)
  | none => .ok none

/-- `requireChannelFromArray`: as `getChannelFromArray` but throw a
NotFound error when the channel is absent (message distinguishes the
typed and untyped lookups). -/
def requireChannelFromArray (s : EchoState) (name : String) (type : Option ChannelType) :
    Except EchoError Channel :=
  match getChannelFromArray s name type with
  | .error e => .error e
  | .ok (some c) => .ok c
  | .ok none =>
    match type with
    | some t => .error (.notFound (channelTypeCapitalized t ++ " channel " ++ name ++ " does not exist"))
    | none => .error (.notFound ("Channel " ++ name ++ " does not exist"))

/-- `publicChannel`: return the existing entry's handle, or subscribe via
`this.echo.channel(name)`, push a new entry and return the new handle. -/
def publicChannel (s : EchoState) (name : String) :
    Except EchoError (Nat × EchoState × List Eff) :=
  match getChannelFromArray s name (some .public) with
  | .error e => .error e
  | .ok (some c) => .ok (c.handle, s, [])
  | .ok none =>
    let h := s.nextHandle
    let c : Channel := { name := name, handle := h, type := .public, listeners := [], users := none }
    .ok (h, { s with channels := s.channels ++ [c], nextHandle := h + 1 },
         [Eff.subscribe name .public])

/-- `presenceChannel`: return the existing entry's handle, or subscribe
via `this.echo.join(name)`, push a new entry (with `users: null`) and
bind the `here`/`joining`/`leaving` presence callbacks (recorded as the
single composite effect `presenceBind`; the callbacks themselves are
modelled by `deliverHere`/`deliverJoining`/`deliverLeaving`). -/
def presenceChannel (s : EchoState) (name : String) :
    Except EchoError (Nat × EchoState × List Eff) :=
  match getChannelFromArray s name (some .presence) with
  | .error e => .error e
  | .ok (some c) => .ok (c.handle, s, [])
  | .ok none =>
    let h := s.nextHandle
    let c : Channel := { name := name, handle := h, type := .presence, listeners := [], users := none }
    .ok (h, { s with channels := s.channels ++ [c], nextHandle := h + 1 },
         [Eff.subscribe name .presence, Eff.presenceBind name])

/-- `privateChannel`: return the existing entry's handle, or subscribe
via `this.echo.private(name)`, push a new entry and return the handle. -/
def privateChannel (s : EchoState) (name : String) :
    Except EchoError (Nat × EchoState × List Eff) :=
  match getChannelFromArray s name (some .priv) with
  | .error e => .error e
  | .ok (some c) => .ok (c.handle, s, [])
  | .ok none =>
    let h := s.nextHandle
    let c : Channel := { name := name, handle := h, type := .priv, listeners := [], users := none }
    .ok (h, { s with channels := s.channels ++ [c], nextHandle := h + 1 },
         [Eff.subscribe name .priv])

/-- Dispatch on the channel kind, exactly the `switch` in `join`. -/
def channelAccessor (s : EchoState) (name : String) (t : ChannelType) :
    Except EchoError (Nat × EchoState × List Eff) :=
  match t with
  | .public => publicChannel s name
  | .presence => presenceChannel s name
  | .priv => privateChannel s name

/-- `join(name, type)`: create-or-fetch the channel of the given kind
(the handle is not returned to the caller; the service is). -/
def join (s : EchoState) (name : String) (t : ChannelType) :
    Except EchoError (EchoState × List Eff) :=
  match channelAccessor s name t with
  | .error e => .error e
  | .ok (_, s', effs) => .ok (s', effs)

/-- `leave(name)`: if the channel exists, call `this.echo.leave(name)`,
complete every listener subject of the entry, then splice the entry out
of the registry — in that order; otherwise do nothing. -/
def leave (s : EchoState) (name : String) : EchoState × List Eff :=
  match findChannel s name with
  | some c =>
    let s1 := { s with subjects := completeMap s.subjects (c.listeners.map (fun (p : String × Nat) => p.2)) }
    let s2 := { s1 with channels := eraseFirst s1.channels name }
    (s2, Eff.transportLeave name :: (c.listeners.map (fun (p : String × Nat) => Eff.completeSubject p.2) ++ [Eff.removeEntry name]))
  | none => (s, [])

/-- Leave each named channel in order (the `filter(...).forEach(...)`
loop of `logout`; the name list is computed before any mutation). -/
def leaveAll (s : EchoState) (names : List String) : EchoState × List Eff :=
  match names with
  | [] => (s, [])
  | n :: rest =>
    let r1 := leave s n
    let r2 := leaveAll r1.1 rest
    (r2.1, r1.2 ++ r2.2)

/-- Is a channel kind the public kind (`channel.type !== 'public'` is the
negation)? -/
def isPublicType : ChannelType → Bool
  | .public => true
  | _ => false

/-- `logout()`: leave every non-public channel, then clear the auth
headers to an empty mapping.  `userChannelName` is not touched. -/
def logout (s : EchoState) : EchoState × List Eff :=
  let names := (s.channels.filter (fun c => !(isPublicType c.type))).map (fun c => c.name)
  let r := leaveAll s names
  ({ r.1 with authHeaders := [] }, r.2)

/-- `login(headers, userId)`: compute the private user channel name; if a
different user channel was active, `logout()` first; replace the auth
headers wholesale; if the target channel name differs from the tracked
one, record it, subscribe the private channel and attach the single
notification callback (`notificationBind`; the callback itself is
modelled by `deliverNotification`).  A kind-mismatch throw from
`privateChannel` propagates after the mutations already performed. -/
def login (cfg : EchoConfig) (s : EchoState) (headers : List (String × String)) (userId : String) :
    (Except EchoError Unit) × EchoState × List Eff :=
  let newChannelName := userChannelNameFor cfg userId
  let r1 : EchoState × List Eff :=
    match s.userChannelName with
    | some ucn => if ucn = newChannelName then (s, []) else logout s
    | none => (s, [])
  let s2 := { r1.1 with authHeaders := headers }
  if s2.userChannelName = some newChannelName then
    (.ok (), s2, r1.2)
  else
    let s3 := { s2 with userChannelName := some newChannelName }
    match privateChannel s3 newChannelName with
    | .error e => (.error e, s3, r1.2)
    | .ok (_, s4, effs2) => (.ok (), s4, r1.2 ++ effs2 ++ [Eff.notificationBind newChannelName])

/-- `listen(name, event)`: require the channel (any kind); if no subject
is stored under `event`, create one, register the single low-level
callback via `channel.channel.listen(event, ...)` and store the subject;
return (the observable of) the stored subject. -/
def listen (s : EchoState) (name event : String) :
    (Except EchoError Nat) × EchoState × List Eff :=
  match requireChannelFromArray s name none with
  | .error e => (.error e, s, [])
  | .ok c =>
    match lookupA c.listeners event with
    | some sid => (.ok sid, s, [])
    | none =>
      let sid := s.nextSub
      let c' := { c with listeners := c.listeners ++ [(event, sid)] }
      (.ok sid, addSubject { s with channels := updateFirst s.channels name c' } sid SubjectKind.plain,
       [Eff.listenBind name event])

/-- Result of `listenForWhisper`: either a live stream (subject id) or an
errored observable (`throwError(...)` in the source). -/
inductive StreamResult
  | stream (sid : Nat)
  | errored (e : EchoError)
  deriving DecidableEq, Repr

/-- `listenForWhisper(name, event)`: require the channel; on a public
channel return the errored observable
`throwError(new Error('Whisper is not available on public channels'))`;
otherwise create-or-fetch the subject stored under the collision-proof
key `_whisper_${event}_`, registering the low-level whisper callback
once. -/
def listenForWhisper (s : EchoState) (name event : String) :
    (Except EchoError StreamResult) × EchoState × List Eff :=
  match requireChannelFromArray s name none with
  | .error e => (.error e, s, [])
  | .ok c =>
    if c.type = ChannelType.public then
      (.ok (.errored (.unsupportedOperation "Whisper is not available on public channels")), s, [])
    else
      let key := "_whisper_" ++ event ++ "_"
      match lookupA c.listeners key with
      | some sid => (.ok (.stream sid), s, [])
      | none =>
        let sid := s.nextSub
        let c' := { c with listeners := c.listeners ++ [(key, sid)] }
        (.ok (.stream sid), addSubject { s with channels := updateFirst s.channels name c' } sid SubjectKind.plain,
         [Eff.whisperBind name event])

/-- `whisper(name, event, data)`: require the channel; throw
UnsupportedOperation on a public channel; otherwise send the whisper via
the entry's handle. -/
def whisper (s : EchoState) (name event : String) (data : Val) :
    (Except EchoError Unit) × EchoState × List Eff :=
  match requireChannelFromArray s name none with
  | .error e => (.error e, s, [])
  | .ok c =>
    if c.type = ChannelType.public then
      (.error (.unsupportedOperation "Whisper is not available on public channels"), s, [])
    else
      (.ok (), s, [Eff.whisperSend name event data])

/-- `notification(type)`: format the given type with the configured
namespace, then create-or-fetch the per-type subject in the
notification listener table. -/
def notification (cfg : EchoConfig) (s : EchoState) (type : String) : Nat × EchoState :=
  let t := TypeFormatter.format cfg.notificationNamespace type
  match lookupA s.notificationListeners t with
  | some sid => (sid, s)
  | none =>
    let sid := s.nextSub
    (sid, addSubject { s with notificationListeners := s.notificationListeners ++ [(t, sid)] } sid SubjectKind.plain)

/-- `joining(name)`: require a presence channel; create-or-fetch the
subject stored under the reserved key `_joining_` (no transport call:
the presence callbacks were bound at channel creation). -/
def joining (s : EchoState) (name : String) : (Except EchoError Nat) × EchoState :=
  match requireChannelFromArray s name (some .presence) with
  | .error e => (.error e, s)
  | .ok c =>
    match lookupA c.listeners "_joining_" with
    | some sid => (.ok sid, s)
    | none =>
      let sid := s.nextSub
      let c' := { c with listeners := c.listeners ++ [("_joining_", sid)] }
      (.ok sid, addSubject { s with channels := updateFirst s.channels name c' } sid SubjectKind.plain)

/-- `leaving(name)`: as `joining` for the reserved key `_leaving_`. -/
def leaving (s : EchoState) (name : String) : (Except EchoError Nat) × EchoState :=
  match requireChannelFromArray s name (some .presence) with
  | .error e => (.error e, s)
  | .ok c =>
    match lookupA c.listeners "_leaving_" with
    | some sid => (.ok sid, s)
    | none =>
      let sid := s.nextSub
      let c' := { c with listeners := c.listeners ++ [("_leaving_", sid)] }
      (.ok sid, addSubject { s with channels := updateFirst s.channels name c' } sid SubjectKind.plain)

/-- `users(name)`: require a presence channel; create-or-fetch the
subject stored under the reserved key `_users_` — a `ReplaySubject(1)`,
unlike every other listener subject. -/
def users (s : EchoState) (name : String) : (Except EchoError Nat) × EchoState :=
  match requireChannelFromArray s name (some .presence) with
  | .error e => (.error e, s)
  | .ok c =>
    match lookupA c.listeners "_users_" with
    | some sid => (.ok sid, s)
    | none =>
      let sid := s.nextSub
      let c' := { c with listeners := c.listeners ++ [("_users_", sid)] }
      (.ok sid, addSubject { s with channels := updateFirst s.channels name c' } sid SubjectKind.replay1)

/-- The `here` callback bound by `presenceChannel`: replace the entry's
member list wholesale with the delivered roster and, if a `_users_`
subject exists, emit (a deep copy of) the roster on it. -/
def deliverHere (s : EchoState) (name : String) (us : List String) : EchoState :=
  match findChannel s name with
  | some c =>
    let s' := { s with channels := updateFirst s.channels name { c with users := some us } }
    match lookupA c.listeners "_users_" with
    | some sid => emitOn s' sid (Val.roster us)
    | none => s'
  | none => s

/-- The `joining` callback bound by `presenceChannel`: append the member
to the list (`channel.users = channel.users || []` then `push`) and, if
a `_joining_` subject exists, emit (a deep copy of) the member on it. -/
def deliverJoining (s : EchoState) (name : String) (u : String) : EchoState :=
  match findChannel s name with
  | some c =>
    let s' := { s with channels := updateFirst s.channels name { c with users := some ((c.users.getD []) ++ [u]) } }
    match lookupA c.listeners "_joining_" with
    | some sid => emitOn s' sid (Val.str u)
    | none => s'
  | none => s

/-- Roster update performed by the `leaving` handler:
`const existing = channel.users.find(e => e == user); if (existing) { ...splice at indexOf(existing)... }`.
The guard `if (existing)` is a JavaScript truthiness test on the found
member, not a found/not-found test: with members modelled as strings,
a matched empty string is falsy, so no removal happens; only a truthy
(non-empty) match is spliced out at its first index (`List.erase`
removes the first equal element). -/
def leavingRemove (members : List String) (u : String) : List String :=
  match members.find? (fun e => e == u) with
  | some existing => if existing == "" then members else members.erase existing
  | none => members

/-- The `leaving` callback bound by `presenceChannel`: coerce a `null`
member list to `[]`, search it by value equality and splice out the
first match only when the matched member is truthy (`leavingRemove`),
then emit (a deep copy of) the member on the `_leaving_` subject if it
exists — whether or not a match was found or removed. -/
def deliverLeaving (s : EchoState) (name : String) (u : String) : EchoState :=
  match findChannel s name with
  | some c =>
    let s' := { s with channels := updateFirst s.channels name { c with users := some (leavingRemove (c.users.getD []) u) } }
    match lookupA c.listeners "_leaving_" with
    | some sid => emitOn s' sid (Val.str u)
    | none => s'
  | none => s

/-- The callback registered by `channel.channel.listen(event, ...)` in
`listen`: deliver a raw channel event into the subject stored under
`event`, if the channel and binding exist. -/
def deliverEvent (s : EchoState) (name event : String) (v : Val) : EchoState :=
  match findChannel s name with
  | some c =>
    match lookupA c.listeners event with
    | some sid => emitOn s sid v
    | none => s
  | none => s

/-- The notification callback attached by `login`: format the incoming
type with the configured namespace, forward the (raw) notification to
the per-type subject if one is registered under the formatted type, and
independently to the wildcard subject if registered. -/
def deliverNotification (cfg : EchoConfig) (s : EchoState) (n : Notification) : EchoState :=
  let t := TypeFormatter.format cfg.notificationNamespace n.type
  let s1 :=
    match lookupA s.notificationListeners t with
    | some sid => emitOn s sid (Val.notif n)
    | none => s
  match lookupA s1.notificationListeners "*" with
  | some sid => emitOn s1 sid (Val.notif n)
  | none => s1

/-- The connection-state stream assigned by the constructor's
`switch (options.broadcaster)`: a single-value stream for the null
broadcaster, a multicast lifecycle-event stream for socket.io and
pusher, and — in the `default` branch — the errored observable
`throwError(new Error('unsupported'))`. -/
inductive ConnectionStream
  | nullStream
  | socketIoStream
  | pusherStream
  | errorStream (msg : String)
  deriving DecidableEq, Repr

/-- The constructor's broadcaster switch. -/
def mkConnectionState (broadcaster : String) : ConnectionStream :=
  if broadcaster = "null" then .nullStream
  else if broadcaster = "socket.io" then .socketIoStream
  else if broadcaster = "pusher" then .pusherStream
  else .errorStream "unsupported"

/-- The observable parts of a freshly constructed `EchoService`. -/
structure ServiceInit where
  state : EchoState
  connectionStream : ConnectionStream
  deriving DecidableEq, Repr

/-- The `EchoService` constructor: the `new Echo(options)` transport
instantiation is opaque (external library, out of scope per the spec);
the constructor's own code never throws — it assigns the
connection-state stream per the broadcaster switch (errored stream in
the `default` branch) and returns a fully constructed instance. -/
def constructService (cfg : EchoConfig) : Except EchoError ServiceInit :=
  .ok { state := initState, connectionStream := mkConnectionState cfg.broadcaster }

/-- Is an effect a transport-level channel subscription? -/
def isSubscribeEff : Eff → Bool
  | .subscribe _ _ => true
  | _ => false

/-- Number of transport-level subscribe calls in a trace. -/
def countSubscribes (t : List Eff) : Nat :=
  t.countP isSubscribeEff

end Echo

/-! ### Helper lemmas about the association-list primitives -/

namespace Echo

theorem lookupA_emitAssoc (l : List (Nat × Subject)) (sid : Nat) (v : Val) :
    lookupA (emitAssoc l sid v) sid =
      (lookupA l sid).map (fun sub => { sub with emitted := sub.emitted ++ [v] }) := by
  induction l with
  | nil => simp [emitAssoc, lookupA]
  | cons p rest ih =>
    by_cases h : p.1 = sid
    · simp [emitAssoc, lookupA, h]
    · simp [emitAssoc, lookupA, h, ih]

theorem lookupA_append_right {α β : Type} [BEq α] [LawfulBEq α] (l : List (α × β)) (k : α) (v : β)
    (h : lookupA l k = none) : lookupA (l ++ [(k, v)]) k = some v := by
  induction l with
  | nil => simp [lookupA]
  | cons p rest ih =>
    by_cases hk : p.1 = k
    · simp [lookupA, hk] at h
    · simp only [List.cons_append, lookupA] at h ⊢
      simp only [beq_iff_eq, hk, if_false] at h ⊢
      exact ih h

theorem lookupA_completeMap (l : List (Nat × Subject)) (sids : List Nat) (sid : Nat) :
    lookupA (completeMap l sids) sid =
      (lookupA l sid).map
        (fun sub => if containsA sids sid then { sub with completed := true } else sub) := by
  induction l with
  | nil => simp [completeMap, lookupA]
  | cons p rest ih =>
    by_cases h : p.1 = sid
    · by_cases hc : containsA sids sid
      · simp [completeMap, lookupA, h, hc]
      · simp [completeMap, lookupA, h, hc]
    · by_cases hc : containsA sids p.1
      · simp [completeMap, lookupA, h, hc, ih]
      · simp [completeMap, lookupA, h, hc, ih]

theorem findChannel_updateFirst (l : List Channel) (name : String) (c c' : Channel)
    (hfind : l.find? (fun x => x.name == name) = some c) (hname : c'.name = name) :
    (updateFirst l name c').find? (fun x => x.name == name) = some c' := by
  induction l with
  | nil => simp at hfind
  | cons d rest ih =>
    by_cases hd : d.name = name
    · have h1 : updateFirst (d :: rest) name c' = c' :: rest := by simp [updateFirst, hd]
      rw [h1]
      exact List.find?_cons_of_pos _ (by simp [hname])
    · have h1 : updateFirst (d :: rest) name c' = d :: updateFirst rest name c' := by
        simp [updateFirst, hd]
      rw [List.find?_cons_of_neg _ (by simp [hd])] at hfind
      rw [h1, List.find?_cons_of_neg _ (by simp [hd])]
      exact ih hfind

theorem find?_eraseFirst_of_count (l : List Channel) (name : String)
    (h : l.countP (fun c => c.name == name) ≤ 1) :
    (eraseFirst l name).find? (fun c => c.name == name) = none := by
  induction l with
  | nil => simp [eraseFirst]
  | cons d rest ih =>
    by_cases hd : d.name = name
    · have h1 : eraseFirst (d :: rest) name = rest := by simp [eraseFirst, hd]
      rw [h1]
      rw [List.countP_cons_of_pos _ _ (by simp [hd])] at h
      have h0 : rest.countP (fun c => c.name == name) = 0 := by omega
      rw [List.find?_eq_none]
      intro x hx
      simpa using List.countP_eq_zero.mp h0 x hx
    · have h1 : eraseFirst (d :: rest) name = d :: eraseFirst rest name := by
        simp [eraseFirst, hd]
      rw [List.countP_cons_of_neg _ _ (by simp [hd])] at h
      rw [h1, List.find?_cons_of_neg _ (by simp [hd])]
      exact ih h

end Echo
namespace Echo

theorem name_of_findChannel (s : EchoState) (name : String) (c : Channel)
    (hc : findChannel s name = some c) : c.name = name := by
  unfold findChannel at hc
  simpa using List.find?_some hc

/-- C1: for every active channel entry and event name, `listen` performs
at most one low-level `channel.listen` registration per (channel, event)
pair: the first call (no stored subject) registers exactly once and
stores the subject, every later call returns the same stored subject
with no new registration and no state change, and a delivered event is
appended to that one shared subject, so every subscriber of either
returned observable sees every emission. -/
theorem c1_listen_single_registration (s : EchoState) (name event : String) (c : Channel)
    (hc : findChannel s name = some c) :
    ∃ sid s1 t1,
      listen s name event = (.ok sid, s1, t1) ∧
      (lookupA c.listeners event = none → t1 = [Eff.listenBind name event]) ∧
      (∀ sid0, lookupA c.listeners event = some sid0 → sid = sid0 ∧ s1 = s ∧ t1 = []) ∧
      listen s1 name event = (.ok sid, s1, []) ∧
      (∀ v, subjectEmitted (deliverEvent s1 name event v) sid =
        (subjectEmitted s1 sid).map (fun l => l ++ [v])) := by
  have hreq : requireChannelFromArray s name none = .ok c := by
    simp [requireChannelFromArray, getChannelFromArray, hc]
  have hcname : c.name = name := name_of_findChannel s name c hc
  cases hl : lookupA c.listeners event with
  | some sid0 =>
    refine ⟨sid0, s, [], ?_, ?_, ?_, ?_, ?_⟩
    · simp [listen, hreq, hl]
    · intro h; exact absurd h (by simp)
    · intro sid0' h
      exact ⟨Option.some.inj h, rfl, rfl⟩
    · simp [listen, hreq, hl]
    · intro v
      simp [deliverEvent, hc, hl, emitOn, subjectEmitted, lookupSubject,
            lookupA_emitAssoc, Option.map_map]
      rfl
  | none =>
    refine ⟨s.nextSub,
      addSubject { s with channels := updateFirst s.channels name { c with listeners := c.listeners ++ [(event, s.nextSub)] } } s.nextSub SubjectKind.plain,
      [Eff.listenBind name event], ?_, ?_, ?_, ?_, ?_⟩
    · simp [listen, hreq, hl]
    · intro _; rfl
    · intro sid0 h; exact absurd h (by simp)
    · -- the second call finds the updated channel and the stored subject
      have hfind1 : findChannel
          (addSubject { s with channels := updateFirst s.channels name { c with listeners := c.listeners ++ [(event, s.nextSub)] } } s.nextSub SubjectKind.plain)
          name = some { c with listeners := c.listeners ++ [(event, s.nextSub)] } := by
        unfold findChannel addSubject
        exact findChannel_updateFirst s.channels name c _ hc hcname
      have hreq1 : requireChannelFromArray
          (addSubject { s with channels := updateFirst s.channels name { c with listeners := c.listeners ++ [(event, s.nextSub)] } } s.nextSub SubjectKind.plain)
          name none = .ok { c with listeners := c.listeners ++ [(event, s.nextSub)] } := by
        simp [requireChannelFromArray, getChannelFromArray, hfind1]
      simp [listen, hreq1, lookupA_append_right _ _ _ hl]
    · intro v
      have hfind1 : findChannel
          (addSubject { s with channels := updateFirst s.channels name { c with listeners := c.listeners ++ [(event, s.nextSub)] } } s.nextSub SubjectKind.plain)
          name = some { c with listeners := c.listeners ++ [(event, s.nextSub)] } := by
        unfold findChannel addSubject
        exact findChannel_updateFirst s.channels name c _ hc hcname
      simp [deliverEvent, hfind1, lookupA_append_right _ _ _ hl, emitOn,
            subjectEmitted, lookupSubject, lookupA_emitAssoc, Option.map_map]
      rfl

end Echo
namespace Echo

/-- Scenario glue: run `join` and keep the resulting state. -/
def joinS (s : EchoState) (name : String) (t : ChannelType) : EchoState :=
  match join s name t with
  | .ok r => r.1
  | .error _ => s

/-- Scenario glue: run `listen` and keep the resulting state. -/
def listenS (s : EchoState) (name event : String) : EchoState :=
  (listen s name event).2.1

/-- Witness for C1: a concrete first/second `listen` on a freshly joined
public channel. -/
theorem c1_listen_single_registration_witness :
    ∃ sid s1 t1,
      listen (joinS initState "room" ChannelType.public) "room" "msg" = (.ok sid, s1, t1) ∧
      (lookupA (Channel.mk "room" 0 ChannelType.public [] none).listeners "msg" = none →
        t1 = [Eff.listenBind "room" "msg"]) ∧
      (∀ sid0, lookupA (Channel.mk "room" 0 ChannelType.public [] none).listeners "msg" = some sid0 →
        sid = sid0 ∧ s1 = joinS initState "room" ChannelType.public ∧ t1 = []) ∧
      listen s1 "room" "msg" = (.ok sid, s1, []) ∧
      (∀ v, subjectEmitted (deliverEvent s1 "room" "msg" v) sid =
        (subjectEmitted s1 sid).map (fun l => l ++ [v])) :=
  c1_listen_single_registration (joinS initState "room" ChannelType.public) "room" "msg"
    (Channel.mk "room" 0 ChannelType.public [] none) (by decide)

theorem containsA_mem (l : List Nat) (k : Nat) (h : k ∈ l) : containsA l k = true := by
  induction l with
  | nil => cases h
  | cons x rest ih =>
    by_cases hx : x = k
    · simp [containsA, hx]
    · rcases List.mem_cons.mp h with h1 | h2
      · exact absurd h1.symm hx
      · simp [containsA, hx, ih h2]

/-- C2: `leave(name)` on an absent name is a no-op; on an existing entry
it emits the transport leave, then a completion for each of the entry's
listener subjects, then the removal — in that order — after which the
entry is gone from the table, every one of its listener subjects is
completed, and a subsequent `listen` on that name fails with the
NotFound error. -/
theorem c2_leave_teardown (s : EchoState) (name ev : String) :
    (findChannel s name = none → leave s name = (s, [])) ∧
    (∀ c, findChannel s name = some c →
      s.channels.countP (fun ch => ch.name == name) = 1 →
      (leave s name).2 =
        Eff.transportLeave name ::
          (c.listeners.map (fun (p : String × Nat) => Eff.completeSubject p.2) ++ [Eff.removeEntry name]) ∧
      findChannel (leave s name).1 name = none ∧
      (∀ p ∈ c.listeners, ∀ sub, lookupSubject s p.2 = some sub →
        subjectCompleted (leave s name).1 p.2 = some true) ∧
      (listen (leave s name).1 name ev).1 =
        Except.error (EchoError.notFound ("Channel " ++ name ++ " does not exist"))) := by
  constructor
  · intro h; simp [leave, h]
  · intro c hc hcount
    have hfd : List.find? (fun x => x.name == name) s.channels = some c := hc
    have hnone : findChannel (leave s name).1 name = none := by
      simp only [leave, findChannel, hfd]
      exact find?_eraseFirst_of_count s.channels name (le_of_eq hcount)
    refine ⟨by simp [leave, hc], hnone, ?_, ?_⟩
    · intro p hp sub hsub
      have hmem : containsA (c.listeners.map (fun (q : String × Nat) => q.2)) p.2 = true :=
        containsA_mem _ _ (List.mem_map_of_mem _ hp)
      simp only [lookupSubject] at hsub
      simp [leave, hc, subjectCompleted, lookupSubject, lookupA_completeMap, hsub, hmem]
    · simp [listen, requireChannelFromArray, getChannelFromArray, hnone]

end Echo
namespace Echo

/-- Witness for C2: teardown of a concrete public channel with one
listener. -/
theorem c2_leave_teardown_witness :
    (leave (listenS (joinS initState "room" ChannelType.public) "room" "msg") "room").2 =
      Eff.transportLeave "room" ::
        (([("msg", 0)] : List (String × Nat)).map (fun (p : String × Nat) => Eff.completeSubject p.2) ++
          [Eff.removeEntry "room"]) ∧
    findChannel (leave (listenS (joinS initState "room" ChannelType.public) "room" "msg") "room").1 "room" = none ∧
    (listen (leave (listenS (joinS initState "room" ChannelType.public) "room" "msg") "room").1 "room" "msg").1 =
      Except.error (EchoError.notFound ("Channel " ++ "room" ++ " does not exist")) :=
  let h := (c2_leave_teardown (listenS (joinS initState "room" ChannelType.public) "room" "msg") "room" "msg").2
    (Channel.mk "room" 0 ChannelType.public [("msg", 0)] none) (by decide) (by decide)
  ⟨h.1, h.2.1, h.2.2.2⟩

/-- Configuration of the C3 notification-routing scenario: namespace
`App.Notifications`, as in the claim. -/
def c3cfg : EchoConfig :=
  { userModel := "App.User", notificationNamespace := some "App.Notifications", broadcaster := "null" }

/-- The raw notification of the C3 scenario, with fully-qualified type. -/
def c3n : Notification := { type := "App.Notifications.OrderShipped", body := "payload" }

/-- The C3 scenario state: register a listener for `OrderShipped`
(subject 0) and for the wildcard `*` (subject 1), log in (attaching the
notification callback), then receive the raw notification. -/
def c3s : EchoState :=
  deliverNotification c3cfg
    ((login c3cfg (notification c3cfg (notification c3cfg initState "OrderShipped").2 "*").2 [] "1").2.1)
    c3n

/-- Counterexample to C3: the formatter leaves a leading `.` (the
configured namespace is stripped without its trailing separator), so the
incoming type formats to `.OrderShipped`, the per-type listener
registered under `OrderShipped` (subject 0) receives nothing, and only
the wildcard listener (subject 1) receives the notification — the claim
that both receive it exactly once is false on this input. -/
theorem c3_notification_routing_counterexample :
    TypeFormatter.format (some "App.Notifications") "App.Notifications.OrderShipped" = ".OrderShipped" ∧
    (notification c3cfg initState "OrderShipped").1 = 0 ∧
    (notification c3cfg (notification c3cfg initState "OrderShipped").2 "*").1 = 1 ∧
    subjectEmitted c3s 0 = some [] ∧
    subjectEmitted c3s 1 = some [Val.notif c3n] := by
  refine ⟨by decide, by decide, by decide, by decide, by decide⟩

/-- C3 as amended: under namespace `App.Notifications`, the raw
notification of type `App.Notifications.OrderShipped` is delivered
exactly once to the wildcard listener (with its raw payload); the
per-type listener registered under `OrderShipped` receives nothing,
because registration and delivery only match when both format to the
same string — as they do when the listener is registered under the
fully-qualified type itself. -/
theorem c3_notification_routing_amended :
    subjectEmitted c3s 1 = some [Val.notif c3n] ∧
    subjectEmitted c3s 0 = some [] ∧
    subjectEmitted
      (deliverNotification c3cfg
        ((login c3cfg (notification c3cfg initState "App.Notifications.OrderShipped").2 [] "1").2.1)
        c3n) 0 = some [Val.notif c3n] := by
  refine ⟨by decide, by decide, by decide⟩

end Echo
namespace Echo

/-- C4: `login(h1, u)` then `login(h2, u)` with the same user id issues
no further transport call (in particular no second subscribe) and
replaces the auth headers wholesale with `h2`, leaving the channel table
unchanged; `login(h1, u1)` then `login(h2, u2)` with different user
channel names first tears down the non-public channels of `u1` (the
implicit logout: transport leave and removal of `u1`'s private channel)
and only then subscribes `u2`'s private channel and attaches its
notification callback. -/
theorem c4_login_replaces_session (cfg : EchoConfig) (h1 h2 : List (String × String)) (u1 u2 : String)
    (hne : userChannelNameFor cfg u1 ≠ userChannelNameFor cfg u2) :
    ((login cfg (login cfg initState h1 u1).2.1 h2 u1).2.2 = [] ∧
     (login cfg (login cfg initState h1 u1).2.1 h2 u1).2.1.authHeaders = h2 ∧
     (login cfg (login cfg initState h1 u1).2.1 h2 u1).2.1.channels = (login cfg initState h1 u1).2.1.channels) ∧
    (login cfg (login cfg initState h1 u1).2.1 h2 u2).2.2 =
      [Eff.transportLeave (userChannelNameFor cfg u1),
       Eff.removeEntry (userChannelNameFor cfg u1),
       Eff.subscribe (userChannelNameFor cfg u2) ChannelType.priv,
       Eff.notificationBind (userChannelNameFor cfg u2)] := by
  have hr1 : login cfg initState h1 u1 =
      (.ok (),
       { channels := [{ name := userChannelNameFor cfg u1, handle := 0, type := ChannelType.priv,
                        listeners := [], users := none }]
         notificationListeners := []
         userChannelName := some (userChannelNameFor cfg u1)
         authHeaders := h1
         subjects := []
         nextSub := 0
         nextHandle := 1 },
       [Eff.subscribe (userChannelNameFor cfg u1) ChannelType.priv,
        Eff.notificationBind (userChannelNameFor cfg u1)]) := by
    simp [login, initState, privateChannel, getChannelFromArray, findChannel]
  refine ⟨?_, ?_⟩
  · rw [hr1]
    simp [login]
  · rw [hr1]
    simp [login, logout, leaveAll, leave, privateChannel, getChannelFromArray, findChannel,
          isPublicType, eraseFirst, completeMap, hne]

end Echo
namespace Echo

/-- Configuration used by the concrete login scenarios (the user-model
name carries a backslash, as in the source's own usage example). -/
def c4cfg : EchoConfig :=
  { userModel := "App\\User", notificationNamespace := none, broadcaster := "pusher" }

/-- Witness for C4: the two-login scenarios at user ids 42 and 7. -/
theorem c4_login_replaces_session_witness :
    ((login c4cfg (login c4cfg initState [("Authorization", "t1")] "42").2.1 [("Authorization", "t2")] "42").2.2 = [] ∧
     (login c4cfg (login c4cfg initState [("Authorization", "t1")] "42").2.1 [("Authorization", "t2")] "42").2.1.authHeaders = [("Authorization", "t2")] ∧
     (login c4cfg (login c4cfg initState [("Authorization", "t1")] "42").2.1 [("Authorization", "t2")] "42").2.1.channels = (login c4cfg initState [("Authorization", "t1")] "42").2.1.channels) ∧
    (login c4cfg (login c4cfg initState [("Authorization", "t1")] "42").2.1 [("Authorization", "t2")] "7").2.2 =
      [Eff.transportLeave (userChannelNameFor c4cfg "42"),
       Eff.removeEntry (userChannelNameFor c4cfg "42"),
       Eff.subscribe (userChannelNameFor c4cfg "7") ChannelType.priv,
       Eff.notificationBind (userChannelNameFor c4cfg "7")] :=
  c4_login_replaces_session c4cfg [("Authorization", "t1")] [("Authorization", "t2")] "42" "7" (by decide)

/-- Effects of creating a channel of kind `t`: one transport subscribe,
plus the presence-callback binding for presence channels. -/
def createEffects (name : String) (t : ChannelType) : List Eff :=
  Eff.subscribe name t :: (match t with | .presence => [Eff.presenceBind name] | _ => [])

theorem channelAccessor_absent (s : EchoState) (name : String) (t : ChannelType)
    (h : findChannel s name = none) :
    channelAccessor s name t =
      .ok (s.nextHandle,
           { s with channels := s.channels ++ [{ name := name, handle := s.nextHandle, type := t,
                                                  listeners := [], users := none }],
                    nextHandle := s.nextHandle + 1 },
           createEffects name t) := by
  cases t <;>
    simp [channelAccessor, publicChannel, presenceChannel, privateChannel, getChannelFromArray,
          createEffects, h]

theorem channelAccessor_present (s : EchoState) (name : String) (t : ChannelType) (c : Channel)
    (hc : findChannel s name = some c) (ht : c.type = t) :
    channelAccessor s name t = .ok (c.handle, s, []) := by
  cases t <;>
    simp [channelAccessor, publicChannel, presenceChannel, privateChannel, getChannelFromArray, hc, ht]

/-- C5: `join` is idempotent per (name, kind): from a state without the
channel, the first call subscribes exactly once and creates exactly one
registry entry; the second call returns the same transport handle, the
same state, no effects and in particular no further subscribe — for all
three channel kinds. -/
theorem c5_join_idempotent (s : EchoState) (name : String) (t : ChannelType)
    (h : findChannel s name = none) :
    ∃ hd s1 effs,
      channelAccessor s name t = .ok (hd, s1, effs) ∧
      channelAccessor s1 name t = .ok (hd, s1, []) ∧
      countSubscribes effs = 1 ∧
      s1.channels.countP (fun c => c.name == name) = 1 ∧
      join s name t = .ok (s1, effs) ∧
      join s1 name t = .ok (s1, []) := by
  have h' : s.channels.find? (fun c => c.name == name) = none := h
  have hc0 : s.channels.countP (fun c => c.name == name) = 0 := by
    rw [List.countP_eq_zero]
    exact List.find?_eq_none.mp h'
  have habs := channelAccessor_absent s name t h
  have hfind : findChannel
      { s with channels := s.channels ++ [{ name := name, handle := s.nextHandle, type := t,
                                             listeners := [], users := none }],
               nextHandle := s.nextHandle + 1 } name =
      some { name := name, handle := s.nextHandle, type := t, listeners := [], users := none } := by
    simp [findChannel, List.find?_append, h']
  have hpres := channelAccessor_present _ name t _ hfind rfl
  refine ⟨s.nextHandle,
    { s with channels := s.channels ++ [{ name := name, handle := s.nextHandle, type := t,
                                           listeners := [], users := none }],
             nextHandle := s.nextHandle + 1 },
    createEffects name t,
    habs, hpres, ?_, ?_, ?_, ?_⟩
  · cases t <;> rfl
  · simp [List.countP_append, hc0, List.countP_cons]
  · simp [join, habs]
  · simp [join, hpres]

/-- Witness for C5: joining a concrete presence channel twice. -/
theorem c5_join_idempotent_witness :
    ∃ hd s1 effs,
      channelAccessor initState "room" ChannelType.presence = .ok (hd, s1, effs) ∧
      channelAccessor s1 "room" ChannelType.presence = .ok (hd, s1, []) ∧
      countSubscribes effs = 1 ∧
      s1.channels.countP (fun c => c.name == "room") = 1 ∧
      join initState "room" ChannelType.presence = .ok (s1, effs) ∧
      join s1 "room" ChannelType.presence = .ok (s1, []) :=
  c5_join_idempotent initState "room" ChannelType.presence (by decide)

end Echo
namespace Echo

/-- The C6 scenario state: join a presence channel and let the initial
roster arrive before anyone has called `users(name)`. -/
def c6s : EchoState := deliverHere (joinS initState "room" ChannelType.presence) "room" ["a"]

/-- Counterexample to C6: the roster `["a"]` has arrived (it is stored in
the entry's member list), yet a subscriber that only now calls
`users("room")` and subscribes receives nothing — the roster was
delivered before the `_users_` replay subject existed, so it was never
buffered.  The claim that every subscriber subscribing after the initial
roster delivery still observes that roster is false on this input. -/
theorem c6_users_replay_counterexample :
    (findChannel c6s "room").map Channel.users = some (some ["a"]) ∧
    (users c6s "room").1 = Except.ok 0 ∧
    subscribeNow (users c6s "room").2 0 = [] :=
  ⟨by decide, rfl, by decide⟩

/-- C6 as amended: the `_users_` stream is a `ReplaySubject(1)`, so a
subscriber that subscribes after a roster delivery immediately receives
that roster — provided `users(name)` had been called (creating the
stream) before the roster arrived; a roster delivered before the first
`users(name)` call is not replayed. -/
theorem c6_users_replay_amended (name : String) (us : List String) :
    (users (joinS initState name ChannelType.presence) name).1 = Except.ok 0 ∧
    subscribeNow (deliverHere (users (joinS initState name ChannelType.presence) name).2 name us) 0 =
      [Val.roster us] := by
  constructor <;>
    simp [joinS, join, channelAccessor, presenceChannel, getChannelFromArray, findChannel,
          initState, users, requireChannelFromArray, addSubject, updateFirst, deliverHere,
          lookupA, emitOn, emitAssoc, subscribeNow, lookupSubject, mkSubject]

/-- Counterexample to C7: constructing with the unrecognized backend
selector `bogus` does not fail — an instance is produced (`isOk`), in a
degraded mode where the raw connection-state stream is the errored
observable `throwError(new Error('unsupported'))`. -/
theorem c7_constructor_counterexample :
    (constructService { userModel := "App.User", notificationNamespace := none,
                        broadcaster := "bogus" }).isOk = true ∧
    (constructService { userModel := "App.User", notificationNamespace := none,
                        broadcaster := "bogus" }).toOption.map ServiceInit.connectionStream =
      some (ConnectionStream.errorStream "unsupported") :=
  ⟨rfl, rfl⟩

/-- C7 as amended: an unrecognized backend selector does not fail
construction with a ConfigurationError; the constructor returns a
degraded instance whose raw connection-state stream is the errored
stream carrying the `unsupported` error. -/
theorem c7_constructor_amended (cfg : EchoConfig)
    (hn : cfg.broadcaster ≠ "null") (hs : cfg.broadcaster ≠ "socket.io")
    (hp : cfg.broadcaster ≠ "pusher") :
    constructService cfg =
      Except.ok { state := initState, connectionStream := ConnectionStream.errorStream "unsupported" } := by
  simp [constructService, mkConnectionState, hn, hs, hp]

/-- Witness for the amended C7 at the concrete selector `bogus`. -/
theorem c7_constructor_amended_witness :
    constructService { userModel := "App.User", notificationNamespace := none, broadcaster := "bogus" } =
      Except.ok { state := initState, connectionStream := ConnectionStream.errorStream "unsupported" } :=
  c7_constructor_amended
    { userModel := "App.User", notificationNamespace := none, broadcaster := "bogus" }
    (by decide) (by decide) (by decide)

end Echo
namespace Echo

theorem leavingRemove_ne (members : List String) (u : String) (hu : u ≠ "") :
    leavingRemove members u = members.erase u := by
  unfold leavingRemove
  cases hf : members.find? (fun e => e == u) with
  | none =>
    have hnm : u ∉ members := by
      intro hm
      have := List.find?_eq_none.mp hf u hm
      simp at this
    rw [List.erase_of_not_mem hnm]
  | some existing =>
    have he : existing = u := by simpa using List.find?_some hf
    subst he
    simp [hu]

theorem leavingRemove_empty (members : List String) :
    leavingRemove members "" = members := by
  unfold leavingRemove
  cases hf : members.find? (fun e => e == "") with
  | none => rfl
  | some existing =>
    have he : existing = "" := by simpa using List.find?_some hf
    simp [he]

/-- Counterexample to C8: on a presence channel whose roster is `[""]`,
a leave delta for `""` finds a value-equal match, yet the source's
`if (existing)` truthiness guard skips the splice (the matched member is
the falsy empty string), so the roster stays `[""]` — removing the first
matching element, as the claim states, would have left `[]`.  The claim
that the first matching element (if any) is removed is therefore false
at this input. -/
theorem c8_presence_leave_delta_counterexample :
    ((([""] : List String).find? (fun e => e == "")).isSome = true) ∧
    (findChannel
        (deliverLeaving
          (deliverHere (joinS initState "room" ChannelType.presence) "room" [""])
          "room" "")
        "room").map Channel.users = some (some [""]) ∧
    ([""] : List String).erase "" = [] := by
  refine ⟨by decide, by decide, by decide⟩

/-- C8 as amended: on a presence leave delta for member `u`, the member
list (`null` coerced to `[]`) is searched by value equality and the
first match is removed only when the matched member is truthy — for a
truthy `u` (non-empty, members being strings) the update is exactly
`List.erase`, while a falsy `u` leaves the roster unchanged even when a
match exists — and `u` is emitted on the `_leaving_` stream regardless
of whether a match was found; in the claim's concrete scenario — roster
`["a","b"]`, then a join of `"c"`, then a leave of `"a"` — the internal
membership afterwards is `["b","c"]`. -/
theorem c8_presence_leave_delta_amended (s : EchoState) (name u : String) (c : Channel)
    (hc : findChannel s name = some c) :
    findChannel (deliverLeaving s name u) name =
      some { c with users := some (leavingRemove (c.users.getD []) u) } ∧
    (u ≠ "" → leavingRemove (c.users.getD []) u = (c.users.getD []).erase u) ∧
    (u = "" → leavingRemove (c.users.getD []) u = c.users.getD []) ∧
    (∀ sid, lookupA c.listeners "_leaving_" = some sid →
      subjectEmitted (deliverLeaving s name u) sid =
        (subjectEmitted s sid).map (fun l => l ++ [Val.str u])) ∧
    (findChannel
        (deliverLeaving
          (deliverJoining
            (deliverHere (joinS initState "room" ChannelType.presence) "room" ["a", "b"])
            "room" "c")
          "room" "a")
        "room").map Channel.users = some (some ["b", "c"]) := by
  have hcname : c.name = name := name_of_findChannel s name c hc
  have hfd : List.find? (fun x => x.name == name) s.channels = some c := hc
  refine ⟨?_, fun hu => leavingRemove_ne _ u hu, fun hu => hu ▸ leavingRemove_empty _, ?_, by decide⟩
  · cases hl : lookupA c.listeners "_leaving_" with
    | some sid =>
      simp only [deliverLeaving, findChannel, hfd, hl, emitOn]
      exact findChannel_updateFirst s.channels name c
        { c with users := some (leavingRemove (c.users.getD []) u) } hfd hcname
    | none =>
      simp only [deliverLeaving, findChannel, hfd, hl]
      exact findChannel_updateFirst s.channels name c
        { c with users := some (leavingRemove (c.users.getD []) u) } hfd hcname
  · intro sid hl
    simp [deliverLeaving, hc, hl, emitOn, subjectEmitted, lookupSubject, lookupA_emitAssoc,
          Option.map_map]
    rfl

/-- Witness for the amended C8: a concrete presence channel with roster
`["a","b"]` and a `_leaving_` stream, receiving a leave delta for the
truthy member `"a"`. -/
theorem c8_presence_leave_delta_amended_witness :
    findChannel
        (deliverLeaving
          (deliverHere (leaving (joinS initState "room" ChannelType.presence) "room").2 "room" ["a", "b"])
          "room" "a")
        "room" =
      some { name := "room", handle := 0, type := ChannelType.presence,
             listeners := [("_leaving_", 0)], users := some (leavingRemove ["a", "b"] "a") } ∧
    leavingRemove ["a", "b"] "a" = (["a", "b"] : List String).erase "a" ∧
    subjectEmitted
        (deliverLeaving
          (deliverHere (leaving (joinS initState "room" ChannelType.presence) "room").2 "room" ["a", "b"])
          "room" "a")
        0 =
      (subjectEmitted
          (deliverHere (leaving (joinS initState "room" ChannelType.presence) "room").2 "room" ["a", "b"])
          0).map (fun l => l ++ [Val.str "a"]) := by
  have h := c8_presence_leave_delta_amended
    (deliverHere (leaving (joinS initState "room" ChannelType.presence) "room").2 "room" ["a", "b"])
    "room" "a"
    { name := "room", handle := 0, type := ChannelType.presence,
      listeners := [("_leaving_", 0)], users := some ["a", "b"] }
    (by decide)
  exact ⟨h.1, h.2.1 (by decide), h.2.2.2.1 0 (by decide)⟩

/-- C9: on a channel entry of Public kind, `whisper` fails with the
UnsupportedOperation error and `listenForWhisper` returns the errored
observable carrying the same error; neither issues any transport call
and neither changes any state. -/
theorem c9_whisper_public_guard (s : EchoState) (name ev : String) (d : Val) (c : Channel)
    (hc : findChannel s name = some c) (ht : c.type = ChannelType.public) :
    whisper s name ev d =
      (Except.error (EchoError.unsupportedOperation "Whisper is not available on public channels"), s, []) ∧
    listenForWhisper s name ev =
      (Except.ok (StreamResult.errored
        (EchoError.unsupportedOperation "Whisper is not available on public channels")), s, []) := by
  have hreq : requireChannelFromArray s name none = .ok c := by
    simp [requireChannelFromArray, getChannelFromArray, hc]
  constructor
  · simp [whisper, hreq, ht]
  · simp [listenForWhisper, hreq, ht]

/-- Witness for C9: the guard on a concrete joined public channel. -/
theorem c9_whisper_public_guard_witness :
    whisper (joinS initState "room" ChannelType.public) "room" "evt" (Val.str "d") =
      (Except.error (EchoError.unsupportedOperation "Whisper is not available on public channels"),
       joinS initState "room" ChannelType.public, []) ∧
    listenForWhisper (joinS initState "room" ChannelType.public) "room" "evt" =
      (Except.ok (StreamResult.errored
        (EchoError.unsupportedOperation "Whisper is not available on public channels")),
       joinS initState "room" ChannelType.public, []) :=
  c9_whisper_public_guard (joinS initState "room" ChannelType.public) "room" "evt" (Val.str "d")
    { name := "room", handle := 0, type := ChannelType.public, listeners := [], users := none }
    (by decide) (by decide)

theorem leave_frame (s : EchoState) (n : String) :
    (leave s n).1.userChannelName = s.userChannelName ∧
    (leave s n).1.notificationListeners = s.notificationListeners := by
  cases hf : findChannel s n <;> simp [leave, hf]

theorem leaveAll_frame (names : List String) : ∀ s : EchoState,
    (leaveAll s names).1.userChannelName = s.userChannelName ∧
    (leaveAll s names).1.notificationListeners = s.notificationListeners := by
  induction names with
  | nil => intro s; simp [leaveAll]
  | cons n rest ih =>
    intro s
    simp only [leaveAll]
    have h1 := leave_frame s n
    have h2 := ih (leave s n).1
    exact ⟨h2.1.trans h1.1, h2.2.trans h1.2⟩

/-- C10: `logout()` never touches the tracked current-user-channel name
(nor the notification listener table) — it mutates only the channel
table, the subjects it completes and the auth headers; consequently
`login(h, u)`, `logout()`, `login(h', u)` with the identical user id
performs no transport call at all in the third step: the private user
channel is not re-subscribed and the notification callback is not
re-attached, even though the logout tore the channel down. -/
theorem c10_logout_frame_and_relogin_skip :
    (∀ s, (logout s).1.userChannelName = s.userChannelName ∧
          (logout s).1.notificationListeners = s.notificationListeners) ∧
    (∀ (cfg : EchoConfig) (h h' : List (String × String)) (u : String),
      (login cfg (logout (login cfg initState h u).2.1).1 h' u).2.2 = [] ∧
      (login cfg (logout (login cfg initState h u).2.1).1 h' u).1 = Except.ok () ∧
      (login cfg (logout (login cfg initState h u).2.1).1 h' u).2.1.userChannelName =
        some (userChannelNameFor cfg u)) := by
  constructor
  · intro s
    have h := leaveAll_frame ((s.channels.filter (fun c => !(isPublicType c.type))).map (fun c => c.name)) s
    simpa [logout] using h
  · intro cfg h h' u
    simp [login, logout, leaveAll, leave, privateChannel, getChannelFromArray, findChannel,
          initState, isPublicType, eraseFirst, completeMap]

end Echo
